import Mathlib

/-!
Shallow embedding of the streamdeck-gw2 plugin core
(`src/io.piercefamily.gw2.sdPlugin/src`): the MumbleLink shared-memory
reader, the state-manager diff/notify loop, and the SQLite-backed
resolution caches.  Definitions are translated from the JavaScript
source; theorems check the natural-language specification against them.
-/

namespace GW2

/-! ## Byte buffers (Node.js `Buffer`)

A Node.js `Buffer` is a fixed-length byte array whose numeric accessors
(`readUInt32LE`, `readUInt8`, `readFloatLE`) throw a `RangeError` when the
access would run past the end.  We model a buffer as a byte function plus a
length; an out-of-range accessor returns `none` (the thrown error). -/

structure Buffer where
  data : Nat → Nat
  len : Nat

/-- Byte at index `i` (bytes are always reduced mod 256). -/
def Buffer.byte (b : Buffer) (i : Nat) : Nat := b.data i % 256

/-- `buf.readUInt8(off)`: `none` models the out-of-bounds `RangeError`. -/
def readUInt8 (b : Buffer) (off : Nat) : Option Nat :=
  if off + 1 ≤ b.len then some (b.byte off) else none

/-- `buf.readUInt32LE(off)`: little-endian 32-bit read. -/
def readUInt32LE (b : Buffer) (off : Nat) : Option Nat :=
  if off + 4 ≤ b.len then
    some (b.byte off + 256 * b.byte (off + 1) + 256 ^ 2 * b.byte (off + 2) +
      256 ^ 3 * b.byte (off + 3))
  else none

/-- `buf.readUInt16LE(off)` style pairing used when decoding UTF-16LE. -/
def u16At (b : Buffer) (off : Nat) : Nat :=
  b.byte off + 256 * b.byte (off + 1)

/-- `buf.readFloatLE(off)`.  No claim inspects floating-point values, so the
result is kept as the raw little-endian 32-bit pattern. -/
def readFloatLE (b : Buffer) (off : Nat) : Option Nat :=
  readUInt32LE b off

/-- `buf.subarray(start, stop)` then byte extraction.  JS `subarray` clamps
its bounds to the buffer length and never throws. -/
def subarrayBytes (b : Buffer) (start stop : Nat) : List Nat :=
  (List.range (min stop b.len - start)).map fun i => b.byte (start + i)

/-- `Buffer.prototype.toString("utf16le")`: consecutive byte pairs become
UTF-16 code units (a trailing odd byte is dropped). -/
def utf16Units : List Nat → List Nat
  | lo :: hi :: rest => (lo + 256 * hi) :: utf16Units rest
  | _ => []

/-! ## MumbleLink layout (`mumble-reader.js`) -/

def LINKED_MEM_SIZE : Nat := 5460

namespace OFFSETS

def uiVersion : Nat := 0
def uiTick : Nat := 4
def fAvatarPosition : Nat := 8
def fAvatarFront : Nat := 20
def fAvatarTop : Nat := 32
def name : Nat := 44
def fCameraPosition : Nat := 556
def fCameraFront : Nat := 568
def fCameraTop : Nat := 580
def identity : Nat := 592
def context_len : Nat := 1104
def context : Nat := 1108
def description : Nat := 1364

end OFFSETS

namespace CTX_OFFSETS

def serverAddress : Nat := 0
def mapId : Nat := 28
def mapType : Nat := 32
def shardId : Nat := 36
def instanceField : Nat := 40
def buildId : Nat := 44
def uiState : Nat := 48
def compassWidth : Nat := 52
def compassHeight : Nat := 54
def compassRotation : Nat := 56
def playerX : Nat := 60
def playerY : Nat := 64
def mapCenterX : Nat := 68
def mapCenterY : Nat := 72
def mapScale : Nat := 76
def processId : Nat := 80
def mountIndex : Nat := 84

end CTX_OFFSETS

namespace UI_STATE_FLAGS

def isMapOpen : Nat := 1 <<< 0
def isCompassTopRight : Nat := 1 <<< 1
def isCompassRotating : Nat := 1 <<< 2
def gameHasFocus : Nat := 1 <<< 3
def isCompetitive : Nat := 1 <<< 4
def textboxHasFocus : Nat := 1 <<< 5
def isInCombat : Nat := 1 <<< 6

end UI_STATE_FLAGS

/-- JS `!!(uiState & FLAG)`. -/
def flagSet (w flag : Nat) : Bool := w &&& flag != 0

/-- The decoded `uiState` record built in `#parseContext`. -/
structure UiStateFlags where
  raw : Nat
  isMapOpen : Bool
  isCompassTopRight : Bool
  isCompassRotating : Bool
  gameHasFocus : Bool
  isCompetitive : Bool
  textboxHasFocus : Bool
  isInCombat : Bool
deriving Repr, DecidableEq

/-- Flag-word decode as performed in `#parseContext`. -/
def decodeUiState (w : Nat) : UiStateFlags where
  raw := w
  isMapOpen := flagSet w UI_STATE_FLAGS.isMapOpen
  isCompassTopRight := flagSet w UI_STATE_FLAGS.isCompassTopRight
  isCompassRotating := flagSet w UI_STATE_FLAGS.isCompassRotating
  gameHasFocus := flagSet w UI_STATE_FLAGS.gameHasFocus
  isCompetitive := flagSet w UI_STATE_FLAGS.isCompetitive
  textboxHasFocus := flagSet w UI_STATE_FLAGS.textboxHasFocus
  isInCombat := flagSet w UI_STATE_FLAGS.isInCombat

/-- The context record returned by `#parseContext` (floats kept as raw bits). -/
structure Context where
  mapId : Nat
  mapType : Nat
  shardId : Nat
  instanceField : Nat
  buildId : Nat
  processId : Nat
  mountIndex : Nat
  playerX : Nat
  playerY : Nat
  mapScale : Nat
  uiState : UiStateFlags
deriving Repr, DecidableEq

/-- `MumbleLinkReader.#parseContext`. -/
def parseContext (buf : Buffer) : Option Context := do
  let ctxBase := OFFSETS.context
  let uiState ← readUInt32LE buf (ctxBase + CTX_OFFSETS.uiState)
  let mapId ← readUInt32LE buf (ctxBase + CTX_OFFSETS.mapId)
  let mapType ← readUInt32LE buf (ctxBase + CTX_OFFSETS.mapType)
  let shardId ← readUInt32LE buf (ctxBase + CTX_OFFSETS.shardId)
  let instanceField ← readUInt32LE buf (ctxBase + CTX_OFFSETS.instanceField)
  let buildId ← readUInt32LE buf (ctxBase + CTX_OFFSETS.buildId)
  let processId ← readUInt32LE buf (ctxBase + CTX_OFFSETS.processId)
  let mountIndex ← readUInt8 buf (ctxBase + CTX_OFFSETS.mountIndex)
  let playerX ← readFloatLE buf (ctxBase + CTX_OFFSETS.playerX)
  let playerY ← readFloatLE buf (ctxBase + CTX_OFFSETS.playerY)
  let mapScale ← readFloatLE buf (ctxBase + CTX_OFFSETS.mapScale)
  return { mapId, mapType, shardId, instanceField, buildId, processId,
           mountIndex, playerX, playerY, mapScale,
           uiState := decodeUiState uiState }

/-! ## Mini JSON (a model of the built-in `JSON.parse`)

`#parseIdentity` calls the host `JSON.parse` inside a try/catch block.  We
model it by an executable strict JSON parser over UTF-16 code units; it
returns `none` where `JSON.parse` would throw a `SyntaxError`. -/

inductive Json where
  | null
  | bool (b : Bool)
  | num (lexeme : List Nat)
  | str (units : List Nat)
  | arr (items : List Json)
  | obj (fields : List (List Nat × Json))
deriving Repr

def isDigit (c : Nat) : Bool := 0x30 ≤ c && c ≤ 0x39

def isHexDigit (c : Nat) : Bool :=
  isDigit c || (0x41 ≤ c && c ≤ 0x46) || (0x61 ≤ c && c ≤ 0x66)

def hexVal (c : Nat) : Nat :=
  if isDigit c then c - 0x30 else if c ≤ 0x46 then c - 0x41 + 10 else c - 0x61 + 10

def isJsonWs (c : Nat) : Bool := c == 0x20 || c == 0x9 || c == 0xA || c == 0xD

def skipWs (s : List Nat) : List Nat := s.dropWhile isJsonWs

/-- Body of a JSON string after the opening quote: returns the decoded code
units and the input remaining after the closing quote. -/
def parseStringBody : List Nat → Option (List Nat × List Nat)
  | [] => none
  | c :: r =>
    if c == 0x22 then some ([], r)
    else if c == 0x5C then
      match r with
      | [] => none
      | e :: r2 =>
        if e == 0x22 || e == 0x5C || e == 0x2F then
          (parseStringBody r2).map fun p => (e :: p.1, p.2)
        else if e == 0x62 then (parseStringBody r2).map fun p => (0x8 :: p.1, p.2)
        else if e == 0x66 then (parseStringBody r2).map fun p => (0xC :: p.1, p.2)
        else if e == 0x6E then (parseStringBody r2).map fun p => (0xA :: p.1, p.2)
        else if e == 0x72 then (parseStringBody r2).map fun p => (0xD :: p.1, p.2)
        else if e == 0x74 then (parseStringBody r2).map fun p => (0x9 :: p.1, p.2)
        else if e == 0x75 then
          match r2 with
          | h1 :: h2 :: h3 :: h4 :: r3 =>
            if isHexDigit h1 && isHexDigit h2 && isHexDigit h3 && isHexDigit h4 then
              (parseStringBody r3).map fun p =>
                ((hexVal h1 * 4096 + hexVal h2 * 256 + hexVal h3 * 16 + hexVal h4) :: p.1, p.2)
            else none
          | _ => none
        else none
    else if c < 0x20 then none
    else (parseStringBody r).map fun p => (c :: p.1, p.2)

/-- Fraction and exponent part of a JSON number; `negPart`/`ip` already parsed. -/
def continueNum (negPart ip : List Nat) (s : List Nat) : Option (Json × List Nat) :=
  let fracRes : Option (List Nat × List Nat) :=
    match s with
    | c :: r =>
      if c == 0x2E then
        let ds := r.takeWhile isDigit
        if ds.isEmpty then none else some (c :: ds, r.dropWhile isDigit)
      else some ([], s)
    | [] => some ([], s)
  match fracRes with
  | none => none
  | some (fp, s2) =>
    let expRes : Option (List Nat × List Nat) :=
      match s2 with
      | c :: r =>
        if c == 0x65 || c == 0x45 then
          let (sgn, r2) :=
            match r with
            | d :: r3 => if d == 0x2B || d == 0x2D then ([d], r3) else ([], r)
            | [] => ([], r)
          let ds := r2.takeWhile isDigit
          if ds.isEmpty then none else some (c :: (sgn ++ ds), r2.dropWhile isDigit)
        else some ([], s2)
      | [] => some ([], s2)
    match expRes with
    | none => none
    | some (ep, s3) => some (.num (negPart ++ ip ++ fp ++ ep), s3)

/-- JSON number: `-? (0 | [1-9][0-9]*) frac? exp?`. -/
def parseNumber (s : List Nat) : Option (Json × List Nat) :=
  let (negPart, s1) :=
    match s with
    | c :: r => if c == 0x2D then ([c], r) else (([] : List Nat), s)
    | [] => ([], s)
  match s1 with
  | [] => none
  | c :: r =>
    if c == 0x30 then continueNum negPart [c] r
    else if isDigit c then
      continueNum negPart (c :: r.takeWhile isDigit) (r.dropWhile isDigit)
    else none

mutual

def parseValue (fuel : Nat) (s : List Nat) : Option (Json × List Nat) :=
  match fuel with
  | 0 => none
  | fuel + 1 =>
    match skipWs s with
    | [] => none
    | c :: rest =>
      if c == 0x6E then
        match rest with
        | 0x75 :: 0x6C :: 0x6C :: r => some (.null, r)
        | _ => none
      else if c == 0x74 then
        match rest with
        | 0x72 :: 0x75 :: 0x65 :: r => some (.bool true, r)
        | _ => none
      else if c == 0x66 then
        match rest with
        | 0x61 :: 0x6C :: 0x73 :: 0x65 :: r => some (.bool false, r)
        | _ => none
      else if c == 0x22 then
        (parseStringBody rest).map fun p => (.str p.1, p.2)
      else if c == 0x5B then
        match skipWs rest with
        | 0x5D :: r => some (.arr [], r)
        | s2 => parseArrayElems fuel s2 []
      else if c == 0x7B then
        match skipWs rest with
        | 0x7D :: r => some (.obj [], r)
        | s2 => parseObjMembers fuel s2 []
      else parseNumber (c :: rest)

def parseArrayElems (fuel : Nat) (s : List Nat) (acc : List Json) :
    Option (Json × List Nat) :=
  match fuel with
  | 0 => none
  | fuel + 1 =>
    match parseValue fuel s with
    | none => none
    | some (v, s2) =>
      match skipWs s2 with
      | 0x2C :: s3 => parseArrayElems fuel s3 (acc ++ [v])
      | 0x5D :: s3 => some (.arr (acc ++ [v]), s3)
      | _ => none

def parseObjMembers (fuel : Nat) (s : List Nat) (acc : List (List Nat × Json)) :
    Option (Json × List Nat) :=
  match fuel with
  | 0 => none
  | fuel + 1 =>
    match skipWs s with
    | 0x22 :: r =>
      match parseStringBody r with
      | none => none
      | some (key, s2) =>
        match skipWs s2 with
        | 0x3A :: s3 =>
          match parseValue fuel s3 with
          | none => none
          | some (v, s4) =>
            match skipWs s4 with
            | 0x2C :: s5 => parseObjMembers fuel s5 (acc ++ [(key, v)])
            | 0x7D :: s5 => some (.obj (acc ++ [(key, v)]), s5)
            | _ => none
        | _ => none
    | _ => none

end

/-- The model of `JSON.parse`: parse one value, require only whitespace after
it.  The fuel bound `2 * length + 2` dominates the parser's call depth. -/
def jsonParse (s : List Nat) : Option Json :=
  match parseValue (2 * s.length + 2) s with
  | some (v, rest) => if (skipWs rest).isEmpty then some v else none
  | none => none

/-! ## Identity parsing (`#parseIdentity`) -/

/-- `.replace(/\0+$/, "")`: drop the trailing run of null code units. -/
def stripTrailingNulls (s : List Nat) : List Nat :=
  (s.reverse.dropWhile (· == 0)).reverse

/-- The JS `String.prototype.trim` whitespace set (WhiteSpace ∪ LineTerminator). -/
def isJsWhitespace (c : Nat) : Bool :=
  c == 0x9 || c == 0xA || c == 0xB || c == 0xC || c == 0xD || c == 0x20 ||
  c == 0xA0 || c == 0x1680 || (0x2000 ≤ c && c ≤ 0x200A) || c == 0x2028 ||
  c == 0x2029 || c == 0x202F || c == 0x205F || c == 0x3000 || c == 0xFEFF

/-- `String.prototype.trim`. -/
def jsTrim (s : List Nat) : List Nat :=
  ((s.dropWhile isJsWhitespace).reverse.dropWhile isJsWhitespace).reverse

/-- The stripped, trimmed UTF-16 content of the identity field
(`identityBuf.toString("utf16le").replace(/\0+$/, "").trim()`). -/
def identityText (buf : Buffer) : List Nat :=
  jsTrim (stripTrailingNulls
    (utf16Units (subarrayBytes buf OFFSETS.identity (OFFSETS.identity + 512))))

/-- `MumbleLinkReader.#parseIdentity`.  `JSON.parse("null")` returns the JS
value `null`, indistinguishable from the catch path's `null`, so both map to
`none`. -/
def parseIdentity (buf : Buffer) : Option Json :=
  let identityStr := identityText buf
  if identityStr.isEmpty then none
  else
    match jsonParse identityStr with
    | some .null => none
    | some v => some v
    | none => none

/-! ## `MumbleLinkReader.read` -/

/-- `#readFloat3`. -/
def readFloat3 (buf : Buffer) (off : Nat) : Option (List Nat) := do
  let a ← readFloatLE buf off
  let b ← readFloatLE buf (off + 4)
  let c ← readFloatLE buf (off + 8)
  return [a, b, c]

/-- The parsed state object returned by `read()`. -/
structure Snapshot where
  connected : Bool
  uiVersion : Nat
  uiTick : Nat
  identity : Option Json
  context : Context
  avatarPosition : List Nat
  avatarFront : List Nat
  cameraPosition : List Nat
  cameraFront : List Nat

/-- The reader's mutable fields `#lastTick` and `#staleCycles`. -/
structure ReaderState where
  lastTick : Nat
  staleCycles : Nat
deriving Repr, DecidableEq

def maxStaleCycles : Nat := 3

/-- `MumbleLinkReader.read()` on an opened reader (`#pView` mapped): decode
the 5460-byte view, update the staleness counter, and build the snapshot.
`none` models the `catch` path (a buffer access threw). -/
def read (st : ReaderState) (buf : Buffer) : Option (Snapshot × ReaderState) := do
  let uiVersion ← readUInt32LE buf OFFSETS.uiVersion
  let uiTick ← readUInt32LE buf OFFSETS.uiTick
  let staleCycles := if uiTick == st.lastTick then st.staleCycles + 1 else 0
  let lastTick := if uiTick == st.lastTick then st.lastTick else uiTick
  let connected := decide (staleCycles < maxStaleCycles)
  let identity := parseIdentity buf
  let context ← parseContext buf
  let avatarPosition ← readFloat3 buf OFFSETS.fAvatarPosition
  let avatarFront ← readFloat3 buf OFFSETS.fAvatarFront
  let cameraPosition ← readFloat3 buf OFFSETS.fCameraPosition
  let cameraFront ← readFloat3 buf OFFSETS.fCameraFront
  return ({ connected, uiVersion, uiTick, identity, context,
            avatarPosition, avatarFront, cameraPosition, cameraFront },
          { lastTick, staleCycles })

/-- `n + 1` consecutive `read()` calls on the same buffer contents, starting
from state `st`; returns the result of the last call. -/
def readRepeat (st : ReaderState) (buf : Buffer) : Nat → Option (Snapshot × ReaderState)
  | 0 => read st buf
  | n + 1 =>
    match readRepeat st buf n with
    | some (_, st') => read st' buf
    | none => none

/-- The tick value `readUInt32LE(4)` yields on an in-bounds buffer. -/
def bufTick (buf : Buffer) : Nat :=
  buf.byte 4 + 256 * buf.byte 5 + 256 ^ 2 * buf.byte 6 + 256 ^ 3 * buf.byte 7

/-- The all-zero 5460-byte buffer. -/
def zeroBuf : Buffer := ⟨fun _ => 0, 5460⟩

/-! ## State values and diffing (`state-manager.js`)

A resolved-state field value is either a JS primitive (boolean, number or
string) or a flat record of primitives such as `{id, name}` or
`{id, name, elite, fromCache}` — exactly the shapes `#resolveState`
produces. -/

inductive Prim where
  | b (x : Bool)
  | n (x : Nat)
  | s (x : String)
deriving Repr, DecidableEq

inductive Value where
  | prim (p : Prim)
  | obj (fields : List (String × Prim))
deriving Repr, DecidableEq

/-- JS `b[key]` on a record: `none` models `undefined`. -/
def lookupField (fields : List (String × Prim)) (k : String) : Option Prim :=
  (fields.find? (fun f => f.1 == k)).map (·.2)

/-- `StateManager.#isEqual`.  `a === b` is value equality on primitives and
reference equality on objects; two freshly built resolved-state records are
never reference-equal, so the object/object case proceeds to the key
comparison: equal key counts and, for every key of `a`, `a[key] !== b[key]`
fails (a key missing from `b` reads as `undefined` and compares unequal). -/
def isEqual : Value → Value → Bool
  | .prim a, .prim b => a == b
  | .obj a, .obj b =>
    a.length == b.length &&
      a.all fun f =>
        match lookupField b f.1 with
        | some v => f.2 == v
        | none => false
  | _, _ => false

/-- The resolved state object built by `#resolveState`. -/
structure ResolvedState where
  connected : Bool
  profession : Value
  specialization : Value
  mapName : Value
  gameMode : Value
  inCombat : Bool
  textboxFocused : Bool
  gameHasFocus : Bool
  commander : Bool
  mount : Value
  wvwTeam : Value
  characterName : String
deriving Repr, DecidableEq

/-- `Object.keys(state)` with the corresponding values, in the insertion
order of the object literals in `#resolveState`. -/
def stateFields (s : ResolvedState) : List (String × Value) :=
  [("connected", .prim (.b s.connected)),
   ("profession", s.profession),
   ("specialization", s.specialization),
   ("mapName", s.mapName),
   ("gameMode", s.gameMode),
   ("inCombat", .prim (.b s.inCombat)),
   ("textboxFocused", .prim (.b s.textboxFocused)),
   ("gameHasFocus", .prim (.b s.gameHasFocus)),
   ("commander", .prim (.b s.commander)),
   ("mount", s.mount),
   ("wvwTeam", s.wvwTeam),
   ("characterName", .prim (.s s.characterName))]

/-- `state[key]` (every state object carries exactly the twelve keys). -/
def stateValue (s : ResolvedState) (key : String) : Value :=
  (((stateFields s).find? (fun f => f.1 == key)).map (·.2)).getD (.prim (.b false))

/-- The changed-field computation of `#diffAndNotify` when a previous state
exists: both states carry the same twelve keys, so iterating
`Object.keys(newState)` compares the fields pairwise. -/
def changedFields (prev newState : ResolvedState) : List String :=
  (List.zip (stateFields prev) (stateFields newState)).filterMap fun pf =>
    if isEqual pf.1.2 pf.2.2 then none else some pf.2.1

/-- `#diffAndNotify`'s changed-field list including the first-poll case:
with no previous state every field is changed. -/
def changedFieldsOpt : Option ResolvedState → ResolvedState → List String
  | none, newState => (stateFields newState).map (·.1)
  | some prev, newState => changedFields prev newState

/-- An `{id, name}` pair as built for profession/mapName/gameMode/mount/wvwTeam. -/
def idName (id : Nat) (name : String) : Value :=
  .obj [("id", .n id), ("name", .s name)]

/-- The specialization field `{id, ...specializations.get(id)}`:
`{id, name, elite, fromCache}`. -/
def specVal (id : Nat) (name : String) (elite fromCache : Bool) : Value :=
  .obj [("id", .n id), ("name", .s name), ("elite", .b elite),
        ("fromCache", .b fromCache)]

/-! ## Subscriber notification (`#diffAndNotify`)

A registered callback is identified by `cid`; `throws` says whether invoking
it raises an exception.  The source wraps every invocation in its own
try/catch inside the loop, so a throw is logged and iteration continues.
`diffAndNotify` returns the invocation trace (field key and callback id of
every attempted call, in order) and the ids whose invocation threw (the
logged errors). -/

structure Callback where
  cid : Nat
  throws : Bool
deriving Repr, DecidableEq

/-- `this.#listeners` (`Map<string, Set<Function>>`); `"*"` is the wildcard key. -/
def Listeners := List (String × List Callback)

/-- `this.#listeners.get(field)`, with a missing entry read as the empty set
(the source skips the loop when `get` returns `undefined`). -/
def getListeners (L : Listeners) (field : String) : List Callback :=
  ((L.find? (fun e => e.1 == field)).map (·.2)).getD []

/-- `StateManager.#diffAndNotify`: compute changed fields, return early when
none changed, invoke every field-scoped listener (with
`(newState[field], newState)`), then every wildcard listener (with
`(changedFields, newState)`); each call is individually wrapped in try/catch. -/
def diffAndNotify (L : Listeners) (prev : Option ResolvedState)
    (newState : ResolvedState) : List (String × Nat) × List Nat :=
  let changed := changedFieldsOpt prev newState
  if changed.isEmpty then ([], [])
  else
    let fieldCalls := changed.flatMap fun field =>
      (getListeners L field).map fun cb => (field, cb.cid)
    let fieldErrs := changed.flatMap fun field =>
      ((getListeners L field).filter (·.throws)).map (·.cid)
    let wild := getListeners L "*"
    (fieldCalls ++ wild.map (fun cb => ("*", cb.cid)),
     fieldErrs ++ (wild.filter (·.throws)).map (·.cid))

/-- Specification-side enumeration (§4.2 of the spec): every callback
registered for a changed field, then every wildcard callback, all invoked in
the cycle.  Written only in terms of registrations — never of `throws`. -/
def expectedInvocations (L : Listeners) (changed : List String) :
    List (String × Nat) :=
  if changed.isEmpty then []
  else
    (changed.flatMap fun field =>
      (getListeners L field).map fun cb => (field, cb.cid)) ++
      (getListeners L "*").map fun cb => ("*", cb.cid)

/-- Clear every callback's `throws` flag (turn all subscribers well-behaved). -/
def clearThrows (L : Listeners) : Listeners :=
  L.map fun e => (e.1, e.2.map fun cb => { cb with throws := false })

/-! ## Resolution caches (`cache/*.js`)

A persistent table keyed by integer primary key is read through prepared
`SELECT ... WHERE id = ?` statements; we model the lookup as a function
`Nat → Option row`.  A cache `get` is synchronous: it returns its result,
whether it touched the store (`storeLookup`), and whether it fired a
fire-and-forget background fetch (`fetchScheduled`). -/

structure CacheRow where
  name : String
  fetchedAt : Nat
deriving Repr, DecidableEq

def Store := Nat → Option CacheRow

structure GetResult where
  name : String
  fromCache : Bool
deriving Repr, DecidableEq

structure GetTrace where
  result : GetResult
  storeLookup : Bool
  fetchScheduled : Bool
deriving Repr, DecidableEq

/-- `#isStale` with a 30-day window (`maps.js`).  JS computes
`now - fetchedAt > maxAge` on possibly negative differences; truncated Nat
subtraction agrees because a negative difference also fails the `>`. -/
def mapsIsStale (now fetchedAt : Nat) : Bool :=
  decide (now - fetchedAt > 30 * 24 * 60 * 60)

/-- `MapsCache.get`: no zero special case — always a store lookup; miss
returns the deterministic fallback and schedules a fetch; a stale hit
returns the cached row and schedules a refresh. -/
def mapsGet (store : Store) (now mapId : Nat) : GetTrace :=
  match store mapId with
  | some row =>
    { result := { name := row.name, fromCache := true },
      storeLookup := true,
      fetchScheduled := mapsIsStale now row.fetchedAt }
  | none =>
    { result := { name := "Map " ++ toString mapId, fromCache := false },
      storeLookup := true, fetchScheduled := true }

/-- `MapsCache.#fetchAndStore` resolved: the awaited API call either produced
`{id, name}` data (upserted with `fetched_at = now`) or returned
null / threw (the catch only logs), leaving the store unchanged. -/
def mapsFetchAndStore (store : Store) (now : Nat) (outcome : Option (Nat × String)) :
    Store :=
  match outcome with
  | some (id, name) => fun k => if k = id then some ⟨name, now⟩ else store k
  | none => store

/-- `#isStale` with the 90-day window (`professions.js`, `specializations.js`). -/
def profIsStale (now fetchedAt : Nat) : Bool :=
  decide (now - fetchedAt > 90 * 24 * 60 * 60)

/-- `ProfessionsCache.get`: id 0 short-circuits to `"None"`. -/
def professionsGet (store : Store) (now professionId : Nat) : GetTrace :=
  if professionId = 0 then
    { result := { name := "None", fromCache := true },
      storeLookup := false, fetchScheduled := false }
  else
    match store professionId with
    | some row =>
      { result := { name := row.name, fromCache := true },
        storeLookup := true,
        fetchScheduled := profIsStale now row.fetchedAt }
    | none =>
      { result := { name := "Profession " ++ toString professionId, fromCache := false },
        storeLookup := true, fetchScheduled := true }

/-- A row of the `specializations` table as read by `SpecializationsCache`. -/
structure SpecRow where
  name : String
  elite : Bool
  fetchedAt : Nat
deriving Repr, DecidableEq

def SpecStore := Nat → Option SpecRow

structure SpecGetResult where
  name : String
  elite : Bool
  fromCache : Bool
deriving Repr, DecidableEq

structure SpecGetTrace where
  result : SpecGetResult
  storeLookup : Bool
  fetchScheduled : Bool
deriving Repr, DecidableEq

/-- `SpecializationsCache.get`: id 0 short-circuits to `"Core"`. -/
def specializationsGet (store : SpecStore) (now specId : Nat) : SpecGetTrace :=
  if specId = 0 then
    { result := { name := "Core", elite := false, fromCache := true },
      storeLookup := false, fetchScheduled := false }
  else
    match store specId with
    | some row =>
      { result := { name := row.name, elite := row.elite, fromCache := true },
        storeLookup := true,
        fetchScheduled := profIsStale now row.fetchedAt }
    | none =>
      { result := { name := "Spec " ++ toString specId, elite := false, fromCache := false },
        storeLookup := true, fetchScheduled := true }

/-- `MountsCache.get`: purely seeded, always a store lookup, never a fetch. -/
def mountsGet (store : Store) (mountIndex : Nat) : GetTrace :=
  match store mountIndex with
  | some row =>
    { result := { name := row.name, fromCache := true },
      storeLookup := true, fetchScheduled := false }
  | none =>
    { result := { name := "Mount " ++ toString mountIndex, fromCache := false },
      storeLookup := true, fetchScheduled := false }

/-- `MapTypesCache.get`: purely seeded, always a store lookup, never a fetch. -/
def mapTypesGet (store : Store) (mapType : Nat) : GetTrace :=
  match store mapType with
  | some row =>
    { result := { name := row.name, fromCache := true },
      storeLookup := true, fetchScheduled := false }
  | none =>
    { result := { name := "Mode " ++ toString mapType, fromCache := false },
      storeLookup := true, fetchScheduled := false }

/-- `WvWTeamColorsCache.get`: id 0 short-circuits to `"None"`; otherwise a
lookup with the deterministic fallback, never a fetch. -/
def wvwTeamColorsGet (store : Store) (teamColorId : Nat) : GetTrace :=
  if teamColorId = 0 then
    { result := { name := "None", fromCache := true },
      storeLookup := false, fetchScheduled := false }
  else
    match store teamColorId with
    | some row =>
      { result := { name := row.name, fromCache := true },
        storeLookup := true, fetchScheduled := false }
    | none =>
      { result := { name := "Team " ++ toString teamColorId, fromCache := false },
        storeLookup := true, fetchScheduled := false }

/-! ## Static seeding (`cache/db.js` `#seedStaticData`)

A table is a list of `(id, row)` pairs; `id INTEGER PRIMARY KEY` makes
SQLite keep at most one row per id, which here is a consequence of the two
insert statements rather than an assumption baked into the model. -/

/-- `INSERT OR IGNORE`: keep the table unchanged when a row with this
primary key exists, append otherwise. -/
def insertOrIgnore {α : Type} (t : List (Nat × α)) (id : Nat) (v : α) :
    List (Nat × α) :=
  if t.any (fun r => r.1 == id) then t else t ++ [(id, v)]

/-- `INSERT OR REPLACE`: delete any row with this primary key, then insert. -/
def insertOrReplace {α : Type} (t : List (Nat × α)) (id : Nat) (v : α) :
    List (Nat × α) :=
  t.filter (fun r => r.1 != id) ++ [(id, v)]

/-- Run one prepared insert statement over all seed entries
(the `for (const [id, name] of Object.entries(SEED))` loops). -/
def applySeed {α : Type} (ins : List (Nat × α) → Nat → α → List (Nat × α))
    (t : List (Nat × α)) (seed : List (Nat × α)) : List (Nat × α) :=
  seed.foldl (fun acc r => ins acc r.1 r.2) t

/-- Number of rows of `t` with primary key `id`. -/
def countId {α : Type} (t : List (Nat × α)) (id : Nat) : Nat :=
  t.countP (fun r => r.1 == id)

/-- `SELECT ... WHERE id = ?` (first matching row). -/
def lookupId {α : Type} (t : List (Nat × α)) (id : Nat) : Option α :=
  (t.find? (fun r => r.1 == id)).map (·.2)

/-- SQLite's PRIMARY KEY invariant: at most one row per id. -/
def wfTable {α : Type} (t : List (Nat × α)) : Prop :=
  ∀ id, countId t id ≤ 1

/-- The four seeded tables.  `mounts` and `professions` rows carry
`fetched_at`; `map_types` and `wvw_team_colors` rows are just names. -/
structure DbState where
  map_types : List (Nat × String)
  wvw_team_colors : List (Nat × String)
  mounts : List (Nat × (String × Nat))
  professions : List (Nat × (String × Nat))

/-- The four seed datasets (`Object.entries` of the seed objects; JS object
keys are unique). -/
structure SeedData where
  mapTypesSeed : List (Nat × String)
  wvwTeamColorsSeed : List (Nat × String)
  mountsSeed : List (Nat × String)
  professionsSeed : List (Nat × String)

/-- `CacheDatabase.#seedStaticData`: `INSERT OR IGNORE` for map types and
WvW team colors, `INSERT OR REPLACE` (with `fetched_at = now`) for mounts
and professions, all inside one transaction. -/
def seedStaticData (db : DbState) (now : Nat) (seeds : SeedData) : DbState where
  map_types := applySeed insertOrIgnore db.map_types seeds.mapTypesSeed
  wvw_team_colors := applySeed insertOrIgnore db.wvw_team_colors seeds.wvwTeamColorsSeed
  mounts := applySeed insertOrReplace db.mounts
    (seeds.mountsSeed.map fun r => (r.1, (r.2, now)))
  professions := applySeed insertOrReplace db.professions
    (seeds.professionsSeed.map fun r => (r.1, (r.2, now)))

/-- `WVW_TEAM_COLORS_SEED` (`seed/wvw-team-colors.js`). -/
def WVW_TEAM_COLORS_SEED : List (Nat × String) :=
  [(0, "None"), (9, "Red"), (55, "Blue"), (376, "Green")]

/-- `MOUNTS_SEED` (`seed/mounts.js`). -/
def MOUNTS_SEED : List (Nat × String) :=
  [(0, "None"), (1, "Jackal"), (2, "Griffon"), (3, "Springer"), (4, "Skimmer"),
   (5, "Raptor"), (6, "Roller Beetle"), (7, "Warclaw"), (8, "Skyscale"),
   (9, "Skiff"), (10, "Siege Turtle")]

/-- `PROFESSIONS_SEED` (`seed/professions.js`). -/
def PROFESSIONS_SEED : List (Nat × String) :=
  [(1, "Guardian"), (2, "Warrior"), (3, "Engineer"), (4, "Ranger"), (5, "Thief"),
   (6, "Elementalist"), (7, "Mesmer"), (8, "Necromancer"), (9, "Revenant")]

/-- `MAP_TYPES_SEED` (`seed/map-types.js`). -/
def MAP_TYPES_SEED : List (Nat × String) :=
  [(0, "Redirect"), (1, "Character Creation"), (2, "PvP"), (3, "GvG"),
   (4, "Instance"), (5, "Open World"), (6, "Tournament"), (7, "Tutorial"),
   (8, "User Tournament"), (9, "WvW: Eternal Battlegrounds"),
   (10, "WvW: Blue Borderlands"), (11, "WvW: Green Borderlands"),
   (12, "WvW: Red Borderlands"), (13, "WvW Reward"),
   (14, "WvW: Obsidian Sanctum"), (15, "WvW: Edge of the Mists"),
   (16, "Public Instance"), (17, "Big Battle"), (18, "Armistice Bastion")]

/-- The four seed datasets bundled, as wired in `#seedStaticData`. -/
def realSeeds : SeedData :=
  ⟨MAP_TYPES_SEED, WVW_TEAM_COLORS_SEED, MOUNTS_SEED, PROFESSIONS_SEED⟩

/-- A concrete pre-seed database: one map-type row refreshed from the API
and one mount row. -/
def witnessDb : DbState :=
  ⟨[(5, "Open World")], [], [(1, ("Raptor", 123))], []⟩

/-! ## Trading-post item index (`cache/maps.js`, class `TpItemIndex`) -/

def BATCH_SIZE : Nat := 200

/-- A row fetched from `/v2/items`, as normalized by `GW2ApiClient.getItems`. -/
structure Item where
  id : Nat
  name : String
  rarity : String
  icon : Option String
deriving Repr, DecidableEq

/-- The environment one `build()` call runs against: the id list returned by
`getAllTradeableItemIds` (`none` models a null / failed response), the
per-batch `getItems` responses, and the epoch-seconds clock value taken at
the start of the build. -/
structure TpEnv where
  allIds : Option (List Nat)
  itemsFor : List Nat → Option (List Item)
  now : Nat

/-- The index's persistent and in-memory state: the `tp_items` table, the
`tp_index_progress` and `tp_index_built_at` metadata rows, and the
`#ready` / `#building` fields. -/
structure TpState where
  table : List (Nat × Item)
  progress : Nat
  builtAt : Option Nat
  ready : Bool
  building : Bool

/-- `TpItemIndex.#isStale` with the 7-day window. -/
def tpIsStale (st : TpState) (now : Nat) : Bool :=
  match st.builtAt with
  | none => true
  | some builtAt => decide (now - builtAt > 7 * 24 * 60 * 60)

/-- The batch loop of `build()`: from offset `i`, slice a batch, fetch its
items, upsert them when the fetch succeeded with a non-empty list, persist
`progress = i + BATCH_SIZE` either way, and continue.  Returns the final
state and every batch passed to `getItems`, in order. -/
def buildLoop (env : TpEnv) (ids : List Nat) (i : Nat) (st : TpState) :
    TpState × List (List Nat) :=
  if h : i < ids.length then
    let batch := (ids.drop i).take BATCH_SIZE
    let st' :=
      match env.itemsFor batch with
      | some its =>
        if its.length > 0 then
          { st with table :=
              its.foldl (fun (t : List (Nat × Item)) (item : Item) =>
                insertOrReplace t item.id item) st.table }
        else st
      | none => st
    let next := buildLoop env ids (i + BATCH_SIZE) { st' with progress := i + BATCH_SIZE }
    (next.1, batch :: next.2)
  else (st, [])
termination_by ids.length - i
decreasing_by simp only [BATCH_SIZE]; omega

/-- `TpItemIndex.build()`: no-op while `#building`; skip when fresh,
complete, and no partial offset is pending; otherwise resume the batch loop
from the persisted offset, then record the completion timestamp, reset the
offset to zero and mark the index ready. -/
def tpBuild (env : TpEnv) (st : TpState) : TpState × List (List Nat) :=
  if st.building then (st, [])
  else
    let hasPartialBuild := st.progress > 0
    if st.ready && !tpIsStale st env.now && !hasPartialBuild then (st, [])
    else
      let st₁ := { st with building := true }
      match env.allIds with
      | none => ({ st₁ with building := false }, [])
      | some ids =>
        if ids.length = 0 then ({ st₁ with building := false }, [])
        else
          let processedOffset := if hasPartialBuild then st.progress else 0
          let next := buildLoop env ids processedOffset st₁
          let final : TpState :=
            { table := next.1.table, progress := 0, builtAt := some env.now,
              ready := true, building := false }
          (final, next.2)

/-- A concrete resolved state in the shape `#resolveState` builds. -/
def cexBase : ResolvedState where
  connected := true
  profession := idName 8 "Necromancer"
  specialization := specVal 5 "Druid" false true
  mapName := idName 15 "Queensdale"
  gameMode := idName 5 "Open World"
  inCombat := false
  textboxFocused := false
  gameHasFocus := true
  commander := false
  mount := idName 5 "Raptor"
  wvwTeam := idName 0 "None"
  characterName := "Test"

/-- `cexBase` with only the specialization's `elite` attribute flipped
(same id, same name). -/
def cexElite : ResolvedState :=
  { cexBase with specialization := specVal 5 "Druid" true true }

/-- `cexBase` with only the mount changed. -/
def cexMount : ResolvedState :=
  { cexBase with mount := idName 1 "Jackal" }

/-- A concrete build environment: five tradeable ids, every item fetch
failing (null response). -/
def tpWitnessEnv : TpEnv := ⟨some (List.range 5), fun _ => none, 99⟩

/-- A concrete index state with a pending partial-build offset of 2. -/
def tpWitnessState : TpState := ⟨[], 2, none, false, false⟩

/-! ## Helper lemmas -/

lemma flagSet_shift (w k : Nat) : flagSet w (1 <<< k) = w.testBit k := by
  simp only [flagSet, Nat.shiftLeft_eq, one_mul, Nat.and_two_pow]
  cases h : w.testBit k <;> simp [h]

lemma read_parts (st : ReaderState) (buf : Buffer) (hlen : buf.len = LINKED_MEM_SIZE) :
    (read st buf).map (fun p => (p.1.connected, p.2)) =
      some (if bufTick buf == st.lastTick
        then (decide (st.staleCycles + 1 < maxStaleCycles),
              ⟨st.lastTick, st.staleCycles + 1⟩)
        else (true, ⟨bufTick buf, 0⟩)) := by
  obtain ⟨data, len⟩ := buf
  simp only [LINKED_MEM_SIZE] at hlen
  subst hlen
  simp [read, readUInt32LE, readUInt8, readFloatLE, readFloat3, parseContext,
    OFFSETS.uiVersion, OFFSETS.uiTick, OFFSETS.fAvatarPosition, OFFSETS.fAvatarFront,
    OFFSETS.fCameraPosition, OFFSETS.fCameraFront, OFFSETS.context,
    CTX_OFFSETS.mapId, CTX_OFFSETS.mapType, CTX_OFFSETS.shardId,
    CTX_OFFSETS.instanceField, CTX_OFFSETS.buildId, CTX_OFFSETS.uiState,
    CTX_OFFSETS.playerX, CTX_OFFSETS.playerY, CTX_OFFSETS.mapScale,
    CTX_OFFSETS.processId, CTX_OFFSETS.mountIndex, bufTick, Buffer.byte,
    maxStaleCycles]
  split <;> simp_all

lemma readRepeat_spec (buf : Buffer) (st₀ : ReaderState)
    (hlen : buf.len = LINKED_MEM_SIZE) (hfresh : bufTick buf ≠ st₀.lastTick) :
    ∀ n : Nat, ∃ p, readRepeat st₀ buf n = some p ∧
      p.1.connected = decide (n < maxStaleCycles) ∧
      p.2 = ⟨bufTick buf, n⟩ := by
  intro n
  induction n with
  | zero =>
    have h := read_parts st₀ buf hlen
    rw [if_neg (by simpa using hfresh)] at h
    obtain ⟨p, hp, hval⟩ := Option.map_eq_some'.mp h
    exact ⟨p, hp, by simpa using congrArg Prod.fst hval,
      by simpa using congrArg Prod.snd hval⟩
  | succ n ih =>
    obtain ⟨p, hp, hconn, hst⟩ := ih
    have h := read_parts p.2 buf hlen
    rw [hst] at h
    simp only [if_pos (by simp : (bufTick buf == bufTick buf) = true)] at h
    obtain ⟨q, hq, hval⟩ := Option.map_eq_some'.mp h
    refine ⟨q, ?_, ?_, ?_⟩
    · simp [readRepeat, hp, hst]
      exact hq
    · simpa using congrArg Prod.fst hval
    · simpa using congrArg Prod.snd hval

lemma read_identity (st : ReaderState) (buf : Buffer)
    (hlen : buf.len = LINKED_MEM_SIZE) :
    (read st buf).map (fun p => p.1.identity) = some (parseIdentity buf) := by
  obtain ⟨data, len⟩ := buf
  simp only [LINKED_MEM_SIZE] at hlen
  subst hlen
  simp [read, readUInt32LE, readUInt8, readFloatLE, readFloat3, parseContext,
    OFFSETS.uiVersion, OFFSETS.uiTick, OFFSETS.fAvatarPosition, OFFSETS.fAvatarFront,
    OFFSETS.fCameraPosition, OFFSETS.fCameraFront, OFFSETS.context,
    CTX_OFFSETS.mapId, CTX_OFFSETS.mapType, CTX_OFFSETS.shardId,
    CTX_OFFSETS.instanceField, CTX_OFFSETS.buildId, CTX_OFFSETS.uiState,
    CTX_OFFSETS.playerX, CTX_OFFSETS.playerY, CTX_OFFSETS.mapScale,
    CTX_OFFSETS.processId, CTX_OFFSETS.mountIndex]

lemma parseIdentity_empty (buf : Buffer) (h : identityText buf = []) :
    parseIdentity buf = none := by
  simp [parseIdentity, h]

lemma parseIdentity_badJson (buf : Buffer)
    (h : jsonParse (identityText buf) = none) : parseIdentity buf = none := by
  simp only [parseIdentity, h]
  split <;> rfl

/-! ## Claim theorems -/

/-- C1: on an opened reader, once a read has seen a fresh tick, the `n`-th
following read of an unchanged tick reports `connected = (n < 3)`: the
transition from true to false happens exactly on the 3rd consecutive stale
read; and any read that sees a changed tick resets the counter and reports
`connected = true`. -/
theorem stale_liveness_threshold (buf : Buffer) (st₀ : ReaderState)
    (hlen : buf.len = LINKED_MEM_SIZE) (hfresh : bufTick buf ≠ st₀.lastTick) :
    (∀ n : Nat, (readRepeat st₀ buf n).map (fun p => p.1.connected) =
        some (decide (n < maxStaleCycles))) ∧
    (∀ st : ReaderState, bufTick buf ≠ st.lastTick →
        (read st buf).map (fun p => p.1.connected) = some true) := by
  constructor
  · intro n
    obtain ⟨p, hp, hconn, _⟩ := readRepeat_spec buf st₀ hlen hfresh n
    rw [hp]
    simp [hconn]
  · intro st hst
    have h := read_parts st buf hlen
    rw [if_neg (by simpa using hst)] at h
    obtain ⟨p, hp, hval⟩ := Option.map_eq_some'.mp h
    rw [hp]
    simpa using congrArg Prod.fst hval

/-- Witness for C1: on the all-zero buffer with previous tick 5, the first
read is fresh; the reads after 2 and 3 further stale cycles report
`connected = true` and `connected = false` respectively. -/
theorem stale_liveness_threshold_witness :
    bufTick zeroBuf ≠ ReaderState.lastTick ⟨5, 0⟩ ∧
    (readRepeat ⟨5, 0⟩ zeroBuf 2).map (fun p => p.1.connected) = some true ∧
    (readRepeat ⟨5, 0⟩ zeroBuf 3).map (fun p => p.1.connected) = some false :=
  ⟨by decide,
   by simpa using (stale_liveness_threshold zeroBuf ⟨5, 0⟩ rfl (by decide)).1 2,
   by simpa using (stale_liveness_threshold zeroBuf ⟨5, 0⟩ rfl (by decide)).1 3⟩

/-- C2: decoding any 5460-byte buffer is total — `read` returns a snapshot
(every field decoded, no exception), and an identity field whose stripped
UTF-16 content is empty or fails to parse as JSON yields a null identity
instead of aborting the read. -/
theorem decode_totality (buf : Buffer) (st : ReaderState)
    (hlen : buf.len = LINKED_MEM_SIZE) :
    ∃ s st', read st buf = some (s, st') ∧ s.identity = parseIdentity buf ∧
      (identityText buf = [] → s.identity = none) ∧
      (jsonParse (identityText buf) = none → s.identity = none) := by
  have h := read_identity st buf hlen
  obtain ⟨p, hp, hval⟩ := Option.map_eq_some'.mp h
  exact ⟨p.1, p.2, by rw [← hp], hval,
    fun he => by rw [hval]; exact parseIdentity_empty buf he,
    fun hj => by rw [hval]; exact parseIdentity_badJson buf hj⟩

/-- Witness for C2: the all-zero buffer decodes to a snapshot. -/
theorem decode_totality_witness :
    zeroBuf.len = LINKED_MEM_SIZE ∧
    (∃ s st', read ⟨0, 0⟩ zeroBuf = some (s, st') ∧
      s.identity = parseIdentity zeroBuf ∧
      (identityText zeroBuf = [] → s.identity = none) ∧
      (jsonParse (identityText zeroBuf) = none → s.identity = none)) :=
  ⟨rfl, decode_totality zeroBuf ⟨0, 0⟩ rfl⟩

/-- C3: the seven decoded uiState booleans equal the stated bits of the
32-bit flag word, bit 0 the least-significant: map-open(0),
compass-top-right(1), compass-rotating(2), window-focus(3), competitive(4),
textbox-focus(5), in-combat(6). -/
theorem flag_word_decoding (w : Nat) :
    (decodeUiState w).isMapOpen = w.testBit 0 ∧
    (decodeUiState w).isCompassTopRight = w.testBit 1 ∧
    (decodeUiState w).isCompassRotating = w.testBit 2 ∧
    (decodeUiState w).gameHasFocus = w.testBit 3 ∧
    (decodeUiState w).isCompetitive = w.testBit 4 ∧
    (decodeUiState w).textboxHasFocus = w.testBit 5 ∧
    (decodeUiState w).isInCombat = w.testBit 6 := by
  refine ⟨?_, ?_, ?_, ?_, ?_, ?_, ?_⟩ <;>
    simp only [decodeUiState, UI_STATE_FLAGS.isMapOpen,
      UI_STATE_FLAGS.isCompassTopRight, UI_STATE_FLAGS.isCompassRotating,
      UI_STATE_FLAGS.gameHasFocus, UI_STATE_FLAGS.isCompetitive,
      UI_STATE_FLAGS.textboxHasFocus, UI_STATE_FLAGS.isInCombat, flagSet_shift]

lemma isEqual_prim_refl (p : Prim) : isEqual (.prim p) (.prim p) = true := by
  simp [isEqual]

/-- C4 counterexample: two states that agree on the specialization's `id`
and `name` and differ only in its `elite` attribute are diffed as changed —
the claim that additional attributes never cause a change report is false. -/
theorem diff_extra_attr_counterexample :
    changedFields cexBase cexElite = ["specialization"] ∧
    cexBase.specialization = specVal 5 "Druid" false true ∧
    cexElite.specialization = specVal 5 "Druid" true true := by
  refine ⟨by decide, by decide, by decide⟩

/-- C4 (amended): the per-field diff compares records by shallow equality
over all their keys — `{id, name}` pairs exactly by `id` and `name`, records
with additional attributes also by those attributes — and two states
differing only in the mount record report exactly `["mount"]`. -/
theorem diff_shallow_all_keys (s1 s2 : ResolvedState)
    (hconn : s1.connected = s2.connected)
    (hprof : isEqual s1.profession s2.profession = true)
    (hspec : isEqual s1.specialization s2.specialization = true)
    (hmap : isEqual s1.mapName s2.mapName = true)
    (hmode : isEqual s1.gameMode s2.gameMode = true)
    (hcombat : s1.inCombat = s2.inCombat)
    (htext : s1.textboxFocused = s2.textboxFocused)
    (hfocus : s1.gameHasFocus = s2.gameHasFocus)
    (hcmd : s1.commander = s2.commander)
    (hwvw : isEqual s1.wvwTeam s2.wvwTeam = true)
    (hname : s1.characterName = s2.characterName)
    (hmount : isEqual s1.mount s2.mount = false) :
    changedFields s1 s2 = ["mount"] ∧
    (∀ (i i2 : Nat) (nm nm2 : String),
      isEqual (idName i nm) (idName i2 nm2) = (i == i2 && nm == nm2)) ∧
    (∀ (i : Nat) (nm : String) (e e2 f : Bool),
      isEqual (specVal i nm e f) (specVal i nm e2 f) = (e == e2)) := by
  refine ⟨?_, ?_, ?_⟩
  · simp [changedFields, stateFields, hconn, hcombat, htext, hfocus, hcmd, hname,
      hprof, hspec, hmap, hmode, hwvw, hmount, isEqual_prim_refl]
  · intro i i2 nm nm2
    cases h1 : (i == i2) <;> cases h2 : (nm == nm2) <;>
      simp_all [isEqual, idName, lookupField, List.find?]
  · intro i nm e e2 f
    cases h1 : (e == e2) <;>
      simp_all [isEqual, specVal, lookupField, List.find?]

/-- Witness for the amended C4 at two concrete states differing only in
the mount record. -/
theorem diff_shallow_all_keys_witness :
    isEqual cexBase.mount cexMount.mount = false ∧
    changedFields cexBase cexMount = ["mount"] := by
  have h := diff_shallow_all_keys cexBase cexMount rfl (by decide) (by decide)
    (by decide) (by decide) rfl rfl rfl rfl (by decide) rfl (by decide)
  exact ⟨by decide, h.1⟩

lemma getListeners_clearThrows (L : Listeners) (field : String) :
    getListeners (clearThrows L) field =
      (getListeners L field).map fun cb => { cb with throws := false } := by
  induction L with
  | nil => simp [getListeners, clearThrows]
  | cons e rest ih =>
    by_cases h : e.1 == field <;>
      simp_all [getListeners, clearThrows, List.find?_cons]

/-- C9: within one notification cycle, the invocation trace is exactly every
callback registered for each changed field followed by every wildcard
callback (each receiving the same new state), and it is unchanged when every
subscriber's exception flag is cleared — a throwing callback never prevents
any other invocation in the cycle. -/
theorem subscriber_isolation (L : Listeners) (prev : Option ResolvedState)
    (newState : ResolvedState) :
    (diffAndNotify L prev newState).1 =
      expectedInvocations L (changedFieldsOpt prev newState) ∧
    (diffAndNotify (clearThrows L) prev newState).1 =
      (diffAndNotify L prev newState).1 := by
  constructor
  · simp only [diffAndNotify, expectedInvocations]
    split <;> rfl
  · simp only [diffAndNotify, getListeners_clearThrows]
    split
    · rfl
    · simp only [List.map_map]
      rfl

/-- C5: on a store with no row for `id`, every `get(id)` returns the same
deterministic fallback `{name: "Map <id>", fromCache: false}`; once a
background fetch has stored a row, `get(id)` returns the stored name with
`fromCache: true`; and a failed background fetch leaves the store unchanged. -/
theorem cold_cache_read_through (store : Store) (now now2 now3 id : Nat)
    (habsent : store id = none) :
    (mapsGet store now id).result =
      { name := "Map " ++ toString id, fromCache := false } ∧
    (mapsGet store now2 id).result = (mapsGet store now id).result ∧
    (∀ nm : String,
      (mapsGet (mapsFetchAndStore store now2 (some (id, nm))) now3 id).result =
        { name := nm, fromCache := true }) ∧
    mapsFetchAndStore store now2 none = store := by
  refine ⟨?_, ?_, ?_, rfl⟩
  · simp [mapsGet, habsent]
  · simp [mapsGet, habsent]
  · intro nm
    simp [mapsGet, mapsFetchAndStore]

/-- Witness for C5 on the empty store at id 7. -/
theorem cold_cache_read_through_witness :
    (fun _ => none : Store) 7 = none ∧
    ((mapsGet (fun _ => none) 0 7).result =
       { name := "Map " ++ toString 7, fromCache := false } ∧
     (mapsGet (fun _ => none) 1 7).result = (mapsGet (fun _ => none) 0 7).result ∧
     (∀ nm : String,
       (mapsGet (mapsFetchAndStore (fun _ => none) 1 (some (7, nm))) 2 7).result =
         { name := nm, fromCache := true }) ∧
     mapsFetchAndStore (fun _ => none) 1 none = (fun _ => none : Store)) :=
  ⟨rfl, cold_cache_read_through (fun _ => none) 0 1 2 7 rfl⟩

/-- C6 counterexample: `MapsCache.get(0)` does not short-circuit — on an
empty store it performs a store lookup, schedules a remote fetch, and
returns the fallback `"Map 0"`, not a fixed none/core value. -/
theorem zero_sentinel_counterexample :
    mapsGet (fun _ => none) 0 0 =
      { result := { name := "Map 0", fromCache := false },
        storeLookup := true, fetchScheduled := true } := by
  decide

/-- C6 (amended): only the professions, specializations and WvW-team-colors
caches short-circuit id 0 to a fixed none/core value with no store lookup
and no fetch; the maps, map-types and mounts caches always perform a store
lookup at id 0 (the maps cache also scheduling a remote fetch when the row
is absent, while map-types and mounts never fetch). -/
theorem zero_sentinel_amended (store : Store) (spstore : SpecStore) (now : Nat) :
    professionsGet store now 0 =
      { result := { name := "None", fromCache := true },
        storeLookup := false, fetchScheduled := false } ∧
    specializationsGet spstore now 0 =
      { result := { name := "Core", elite := false, fromCache := true },
        storeLookup := false, fetchScheduled := false } ∧
    wvwTeamColorsGet store 0 =
      { result := { name := "None", fromCache := true },
        storeLookup := false, fetchScheduled := false } ∧
    (mapsGet store now 0).storeLookup = true ∧
    (mapTypesGet store 0).storeLookup = true ∧
    (mountsGet store 0).storeLookup = true ∧
    (mapTypesGet store 0).fetchScheduled = false ∧
    (mountsGet store 0).fetchScheduled = false ∧
    (store 0 = none → (mapsGet store now 0).fetchScheduled = true) := by
  refine ⟨rfl, rfl, rfl, ?_, ?_, ?_, ?_, ?_, ?_⟩
  · cases h : store 0 <;> simp [mapsGet, h]
  · cases h : store 0 <;> simp [mapTypesGet, h]
  · cases h : store 0 <;> simp [mountsGet, h]
  · cases h : store 0 <;> simp [mapTypesGet, h]
  · cases h : store 0 <;> simp [mountsGet, h]
  · intro h
    simp [mapsGet, h]

/-- Witness for the amended C6 on the empty stores. -/
theorem zero_sentinel_amended_witness :
    professionsGet (fun _ => none) 0 0 =
      { result := { name := "None", fromCache := true },
        storeLookup := false, fetchScheduled := false } ∧
    specializationsGet (fun _ => none) 0 0 =
      { result := { name := "Core", elite := false, fromCache := true },
        storeLookup := false, fetchScheduled := false } ∧
    wvwTeamColorsGet (fun _ => none) 0 =
      { result := { name := "None", fromCache := true },
        storeLookup := false, fetchScheduled := false } ∧
    (mapsGet (fun _ => none) 0 0).storeLookup = true ∧
    (mapTypesGet (fun _ => none) 0).storeLookup = true ∧
    (mountsGet (fun _ => none) 0).storeLookup = true ∧
    (mapTypesGet (fun _ => none) 0).fetchScheduled = false ∧
    (mountsGet (fun _ => none) 0).fetchScheduled = false ∧
    ((fun _ => none : Store) 0 = none → (mapsGet (fun _ => none) 0 0).fetchScheduled = true) :=
  zero_sentinel_amended (fun _ => none) (fun _ => none) 0

section SeedLemmas

variable {α : Type}

lemma countId_append (t₁ t₂ : List (Nat × α)) (id : Nat) :
    countId (t₁ ++ t₂) id = countId t₁ id + countId t₂ id :=
  List.countP_append _ _ _

lemma countId_singleton (j : Nat) (v : α) (id : Nat) :
    countId [(j, v)] id = if j = id then 1 else 0 := by
  by_cases h : j = id <;> simp [countId, h]

lemma any_key_iff (t : List (Nat × α)) (id : Nat) :
    t.any (fun r => r.1 == id) = true ↔ 0 < countId t id := by
  rw [List.any_eq_true, countId, List.countP_pos_iff]

lemma countId_insertOrIgnore_self (t : List (Nat × α)) (id : Nat) (v : α)
    (h : countId t id ≤ 1) : countId (insertOrIgnore t id v) id = 1 := by
  unfold insertOrIgnore
  by_cases hany : t.any (fun r => r.1 == id) = true
  · rw [if_pos hany]
    have := (any_key_iff t id).mp hany
    omega
  · rw [if_neg hany]
    have h0 : ¬ 0 < countId t id := fun hc => hany ((any_key_iff t id).mpr hc)
    rw [countId_append, countId_singleton, if_pos rfl]
    omega

lemma countId_insertOrIgnore_other (t : List (Nat × α)) (j : Nat) (v : α)
    (id : Nat) (h : j ≠ id) :
    countId (insertOrIgnore t j v) id = countId t id := by
  unfold insertOrIgnore
  split
  · rfl
  · rw [countId_append, countId_singleton, if_neg h, Nat.add_zero]

lemma wf_insertOrIgnore (t : List (Nat × α)) (j : Nat) (v : α)
    (h : wfTable t) : wfTable (insertOrIgnore t j v) := by
  intro id
  by_cases hj : j = id
  · subst hj
    rw [countId_insertOrIgnore_self t j v (h j)]
  · rw [countId_insertOrIgnore_other t j v id hj]
    exact h id

lemma lookupId_insertOrIgnore (t : List (Nat × α)) (j : Nat) (v : α)
    (id : Nat) (r : α) (h : lookupId t id = some r) :
    lookupId (insertOrIgnore t j v) id = some r := by
  unfold insertOrIgnore
  split
  · exact h
  · unfold lookupId at h ⊢
    obtain ⟨x, hx, hxr⟩ := Option.map_eq_some'.mp h
    rw [List.find?_append, hx]
    simp [hxr]

lemma applySeed_cons (ins : List (Nat × α) → Nat → α → List (Nat × α))
    (t : List (Nat × α)) (s : Nat × α) (rest : List (Nat × α)) :
    applySeed ins t (s :: rest) = applySeed ins (ins t s.1 s.2) rest := rfl

lemma seedIgnore_wf (seed : List (Nat × α)) (t : List (Nat × α))
    (h : wfTable t) : wfTable (applySeed insertOrIgnore t seed) := by
  induction seed generalizing t with
  | nil => exact h
  | cons s rest ih => exact ih _ (wf_insertOrIgnore _ _ _ h)

lemma seedIgnore_lookup_preserved (seed : List (Nat × α)) (t : List (Nat × α))
    (id : Nat) (r : α) (h : lookupId t id = some r) :
    lookupId (applySeed insertOrIgnore t seed) id = some r := by
  induction seed generalizing t with
  | nil => exact h
  | cons s rest ih => exact ih _ (lookupId_insertOrIgnore _ _ _ _ _ h)

lemma seedIgnore_count_one (seed : List (Nat × α)) (t : List (Nat × α))
    (id : Nat) (h : countId t id = 1) :
    countId (applySeed insertOrIgnore t seed) id = 1 := by
  induction seed generalizing t with
  | nil => exact h
  | cons s rest ih =>
    rw [applySeed_cons]
    by_cases hj : s.1 = id
    · subst hj
      exact ih _ (countId_insertOrIgnore_self _ _ _ (le_of_eq h))
    · exact ih _ (by rw [countId_insertOrIgnore_other _ _ _ _ hj]; exact h)

lemma seedIgnore_count_seeded (seed : List (Nat × α)) :
    ∀ t : List (Nat × α), ∀ id : Nat, wfTable t → id ∈ seed.map Prod.fst →
      countId (applySeed insertOrIgnore t seed) id = 1 := by
  induction seed with
  | nil => intro t id _ hid; simp at hid
  | cons s rest ih =>
    intro t id hwf hid
    rw [applySeed_cons]
    rw [List.map_cons] at hid
    rcases List.mem_cons.mp hid with heq | hmem
    · subst heq
      exact seedIgnore_count_one rest _ _
        (countId_insertOrIgnore_self _ _ _ (hwf s.1))
    · exact ih _ _ (wf_insertOrIgnore _ _ _ hwf) hmem

lemma countId_insertOrReplace_self (t : List (Nat × α)) (id : Nat) (v : α) :
    countId (insertOrReplace t id v) id = 1 := by
  unfold insertOrReplace
  rw [countId_append, countId_singleton]
  have h0 : countId (t.filter fun r => r.1 != id) id = 0 := by
    rw [countId]
    apply List.countP_eq_zero.mpr
    intro a ha
    have := (List.mem_filter.mp ha).2
    simp_all
  simp [h0]

lemma countId_insertOrReplace_other (t : List (Nat × α)) (j : Nat) (v : α)
    (id : Nat) (h : j ≠ id) :
    countId (insertOrReplace t j v) id = countId t id := by
  unfold insertOrReplace
  rw [countId_append, countId_singleton, if_neg h, countId, countId,
    List.countP_filter]
  have hcong : ∀ a ∈ t, ((a.1 == id) && (a.1 != j)) = true ↔ (a.1 == id) = true := by
    intro a _
    by_cases ha : a.1 = id
    · subst ha
      simp [bne, Ne.symm h]
    · simp [ha]
  rw [List.countP_congr hcong]
  omega

lemma lookupId_insertOrReplace_self (t : List (Nat × α)) (id : Nat) (v : α) :
    lookupId (insertOrReplace t id v) id = some v := by
  unfold insertOrReplace lookupId
  rw [List.find?_append]
  have hnone : (t.filter fun r => r.1 != id).find? (fun r => r.1 == id) = none := by
    apply List.find?_eq_none.mpr
    intro x hx
    have := (List.mem_filter.mp hx).2
    simp_all
  rw [hnone]
  simp

lemma lookupId_insertOrReplace_other (t : List (Nat × α)) (j : Nat) (v : α)
    (id : Nat) (h : j ≠ id) :
    lookupId (insertOrReplace t j v) id = lookupId t id := by
  have hji : (j == id) = false := by simpa using h
  unfold insertOrReplace lookupId
  rw [List.find?_append]
  have hsingle : List.find? (fun r => r.1 == id) [(j, v)] = none := by
    simp [List.find?, hji]
  rw [hsingle, Option.or_none]
  have hfilter : (t.filter fun r => r.1 != j).find? (fun r => r.1 == id) =
      t.find? (fun r => r.1 == id) := by
    induction t with
    | nil => rfl
    | cons a rest ih =>
      by_cases ha : a.1 = id
      · have haj : (a.1 != j) = true := by
          subst ha
          simp [bne, Ne.symm h]
        simp [List.filter_cons, haj, List.find?_cons, ha, Ne.symm h]
      · by_cases haj : a.1 = j
        · simp [List.filter_cons, haj, List.find?_cons, ha, ih, hji, Ne.symm h]
        · simp [List.filter_cons, haj, List.find?_cons, ha, ih]
  rw [hfilter]

lemma seedReplace_lookup_not_in (seed : List (Nat × α)) :
    ∀ t : List (Nat × α), ∀ id : Nat, id ∉ seed.map Prod.fst →
      lookupId (applySeed insertOrReplace t seed) id = lookupId t id := by
  induction seed with
  | nil => intro t id _; rfl
  | cons s rest ih =>
    intro t id h
    rw [List.map_cons] at h
    have h1 : s.1 ≠ id := fun he => h (he ▸ List.mem_cons_self _ _)
    have h2 : id ∉ rest.map Prod.fst := fun hm => h (List.mem_cons_of_mem _ hm)
    rw [applySeed_cons, ih _ _ h2, lookupId_insertOrReplace_other _ _ _ _ h1]

lemma seedReplace_count_not_in (seed : List (Nat × α)) :
    ∀ t : List (Nat × α), ∀ id : Nat, id ∉ seed.map Prod.fst →
      countId (applySeed insertOrReplace t seed) id = countId t id := by
  induction seed with
  | nil => intro t id _; rfl
  | cons s rest ih =>
    intro t id h
    rw [List.map_cons] at h
    have h1 : s.1 ≠ id := fun he => h (he ▸ List.mem_cons_self _ _)
    have h2 : id ∉ rest.map Prod.fst := fun hm => h (List.mem_cons_of_mem _ hm)
    rw [applySeed_cons, ih _ _ h2, countId_insertOrReplace_other _ _ _ _ h1]

lemma seedReplace_lookup (seed : List (Nat × α)) :
    ∀ t : List (Nat × α), ∀ id : Nat, ∀ v : α,
      (seed.map Prod.fst).Nodup → (id, v) ∈ seed →
      lookupId (applySeed insertOrReplace t seed) id = some v := by
  induction seed with
  | nil => intro t id v _ hmem; simp at hmem
  | cons s rest ih =>
    intro t id v hnodup hmem
    rw [List.map_cons] at hnodup
    have hnd := List.nodup_cons.mp hnodup
    rw [applySeed_cons]
    rcases List.mem_cons.mp hmem with heq | hmem2
    · subst heq
      rw [seedReplace_lookup_not_in rest _ _ hnd.1]
      exact lookupId_insertOrReplace_self _ _ _
    · exact ih _ _ _ hnd.2 hmem2

lemma seedReplace_count_seeded (seed : List (Nat × α)) :
    ∀ t : List (Nat × α), ∀ id : Nat,
      (seed.map Prod.fst).Nodup → id ∈ seed.map Prod.fst →
      countId (applySeed insertOrReplace t seed) id = 1 := by
  induction seed with
  | nil => intro t id _ hid; simp at hid
  | cons s rest ih =>
    intro t id hnodup hid
    rw [List.map_cons] at hnodup hid
    have hnd := List.nodup_cons.mp hnodup
    rw [applySeed_cons]
    rcases List.mem_cons.mp hid with heq | hmem
    · subst heq
      rw [seedReplace_count_not_in rest _ _ hnd.1]
      exact countId_insertOrReplace_self _ _ _
    · exact ih _ _ hnd.2 hmem

end SeedLemmas

lemma mappedSeed_keys (seed : List (Nat × String)) (now : Nat) :
    ((seed.map fun r => (r.1, (r.2, now))).map Prod.fst) = seed.map Prod.fst := by
  rw [List.map_map]
  rfl

/-- C7: running `#seedStaticData` twice leaves every seeded table with
exactly one row per seeded id; the `INSERT OR IGNORE` datasets (map types,
WvW team colors) never overwrite an existing row; the two
`INSERT OR REPLACE` datasets (mounts, professions) have their rows replaced
by the seed values. -/
theorem seed_idempotent_non_overwrite (db : DbState) (seeds : SeedData)
    (now now2 : Nat)
    (hwf_mt : wfTable db.map_types) (hwf_wvw : wfTable db.wvw_team_colors)
    (hnodup_m : (seeds.mountsSeed.map Prod.fst).Nodup)
    (hnodup_p : (seeds.professionsSeed.map Prod.fst).Nodup) :
    (∀ id ∈ seeds.mapTypesSeed.map Prod.fst,
      countId (seedStaticData (seedStaticData db now seeds) now2 seeds).map_types id = 1) ∧
    (∀ id ∈ seeds.wvwTeamColorsSeed.map Prod.fst,
      countId (seedStaticData (seedStaticData db now seeds) now2 seeds).wvw_team_colors id = 1) ∧
    (∀ id ∈ seeds.mountsSeed.map Prod.fst,
      countId (seedStaticData (seedStaticData db now seeds) now2 seeds).mounts id = 1) ∧
    (∀ id ∈ seeds.professionsSeed.map Prod.fst,
      countId (seedStaticData (seedStaticData db now seeds) now2 seeds).professions id = 1) ∧
    (∀ id r, lookupId db.map_types id = some r →
      lookupId (seedStaticData (seedStaticData db now seeds) now2 seeds).map_types id = some r) ∧
    (∀ id r, lookupId db.wvw_team_colors id = some r →
      lookupId (seedStaticData (seedStaticData db now seeds) now2 seeds).wvw_team_colors id = some r) ∧
    (∀ id nm, (id, nm) ∈ seeds.mountsSeed →
      lookupId (seedStaticData (seedStaticData db now seeds) now2 seeds).mounts id = some (nm, now2)) ∧
    (∀ id nm, (id, nm) ∈ seeds.professionsSeed →
      lookupId (seedStaticData (seedStaticData db now seeds) now2 seeds).professions id = some (nm, now2)) := by
  refine ⟨?_, ?_, ?_, ?_, ?_, ?_, ?_, ?_⟩
  · intro id hid
    simp only [seedStaticData]
    exact seedIgnore_count_one _ _ _
      (seedIgnore_count_seeded _ _ _ hwf_mt hid)
  · intro id hid
    simp only [seedStaticData]
    exact seedIgnore_count_one _ _ _
      (seedIgnore_count_seeded _ _ _ hwf_wvw hid)
  · intro id hid
    simp only [seedStaticData]
    refine seedReplace_count_seeded _ _ _ ?_ ?_
    · rw [mappedSeed_keys]
      exact hnodup_m
    · rw [mappedSeed_keys]
      exact hid
  · intro id hid
    simp only [seedStaticData]
    refine seedReplace_count_seeded _ _ _ ?_ ?_
    · rw [mappedSeed_keys]
      exact hnodup_p
    · rw [mappedSeed_keys]
      exact hid
  · intro id r h
    simp only [seedStaticData]
    exact seedIgnore_lookup_preserved _ _ _ _
      (seedIgnore_lookup_preserved _ _ _ _ h)
  · intro id r h
    simp only [seedStaticData]
    exact seedIgnore_lookup_preserved _ _ _ _
      (seedIgnore_lookup_preserved _ _ _ _ h)
  · intro id nm hmem
    simp only [seedStaticData]
    refine seedReplace_lookup _ _ _ _ ?_ ?_
    · rw [mappedSeed_keys]
      exact hnodup_m
    · exact List.mem_map.mpr ⟨(id, nm), hmem, rfl⟩
  · intro id nm hmem
    simp only [seedStaticData]
    refine seedReplace_lookup _ _ _ _ ?_ ?_
    · rw [mappedSeed_keys]
      exact hnodup_p
    · exact List.mem_map.mpr ⟨(id, nm), hmem, rfl⟩

/-- Witness for C7: the repository's actual seed datasets over a database
holding one API-refreshed map-type row and one mount row. -/
theorem seed_idempotent_non_overwrite_witness :
    wfTable witnessDb.map_types ∧ wfTable witnessDb.wvw_team_colors ∧
    (realSeeds.mountsSeed.map Prod.fst).Nodup ∧
    (realSeeds.professionsSeed.map Prod.fst).Nodup ∧
    ((∀ id ∈ realSeeds.mapTypesSeed.map Prod.fst,
      countId (seedStaticData (seedStaticData witnessDb 7 realSeeds) 8 realSeeds).map_types id = 1) ∧
    (∀ id ∈ realSeeds.wvwTeamColorsSeed.map Prod.fst,
      countId (seedStaticData (seedStaticData witnessDb 7 realSeeds) 8 realSeeds).wvw_team_colors id = 1) ∧
    (∀ id ∈ realSeeds.mountsSeed.map Prod.fst,
      countId (seedStaticData (seedStaticData witnessDb 7 realSeeds) 8 realSeeds).mounts id = 1) ∧
    (∀ id ∈ realSeeds.professionsSeed.map Prod.fst,
      countId (seedStaticData (seedStaticData witnessDb 7 realSeeds) 8 realSeeds).professions id = 1) ∧
    (∀ id r, lookupId witnessDb.map_types id = some r →
      lookupId (seedStaticData (seedStaticData witnessDb 7 realSeeds) 8 realSeeds).map_types id = some r) ∧
    (∀ id r, lookupId witnessDb.wvw_team_colors id = some r →
      lookupId (seedStaticData (seedStaticData witnessDb 7 realSeeds) 8 realSeeds).wvw_team_colors id = some r) ∧
    (∀ id nm, (id, nm) ∈ realSeeds.mountsSeed →
      lookupId (seedStaticData (seedStaticData witnessDb 7 realSeeds) 8 realSeeds).mounts id = some (nm, 8)) ∧
    (∀ id nm, (id, nm) ∈ realSeeds.professionsSeed →
      lookupId (seedStaticData (seedStaticData witnessDb 7 realSeeds) 8 realSeeds).professions id = some (nm, 8))) := by
  have hwf1 : wfTable witnessDb.map_types := by
    intro id
    show countId [(5, "Open World")] id ≤ 1
    rw [countId_singleton]
    split <;> omega
  have hwf2 : wfTable witnessDb.wvw_team_colors := by
    intro id
    show countId ([] : List (Nat × String)) id ≤ 1
    simp [countId]
  exact ⟨hwf1, hwf2, by decide, by decide,
    seed_idempotent_non_overwrite witnessDb realSeeds 7 8 hwf1 hwf2
      (by decide) (by decide)⟩

lemma buildLoop_batches (env : TpEnv) (ids : List Nat) (i : Nat) (st : TpState) :
    ∀ b ∈ (buildLoop env ids i st).2,
      ∃ j, i ≤ j ∧ b = (ids.drop j).take BATCH_SIZE := by
  induction i, st using buildLoop.induct env ids with
  | case1 i st hlt batch st' ih =>
    intro b hb
    rw [buildLoop, dif_pos hlt] at hb
    simp only [List.mem_cons] at hb
    rcases hb with hb | hb
    · exact ⟨i, Nat.le_refl i, hb⟩
    · obtain ⟨j, hj, hbj⟩ := ih b hb
      exact ⟨j, by omega, hbj⟩
  | case2 i st hge =>
    intro b hb
    rw [buildLoop, dif_neg hge] at hb
    simp at hb

lemma buildLoop_head (env : TpEnv) (ids : List Nat) (i : Nat) (st : TpState)
    (h : i < ids.length) :
    ((buildLoop env ids i st).2).head? = some ((ids.drop i).take BATCH_SIZE) := by
  rw [buildLoop, dif_pos h]
  rfl

/-- C8: a `build()` on a non-building index with persisted progress offset
`k > 0` resumes its batch loop at item index `k` of the freshly fetched id
list — the first batch fetched starts at index `k`, and every fetched batch
lies at an offset `≥ k`, so items at indices `[0, k)` are never re-fetched;
on completion the build records the completion timestamp, resets the
progress offset to zero and marks the index ready; and a `build()` call
while a build is in progress is a no-op. -/
theorem build_resumable (env : TpEnv) (st : TpState) (ids : List Nat) (k : Nat)
    (hb : st.building = false) (hk : st.progress = k) (hkpos : 0 < k)
    (hids : env.allIds = some ids) (hne : ids.length ≠ 0) :
    (∀ b ∈ (tpBuild env st).2, ∃ j, k ≤ j ∧ b = (ids.drop j).take BATCH_SIZE) ∧
    (k < ids.length →
      ((tpBuild env st).2).head? = some ((ids.drop k).take BATCH_SIZE)) ∧
    (tpBuild env st).1.builtAt = some env.now ∧
    (tpBuild env st).1.progress = 0 ∧
    (tpBuild env st).1.ready = true ∧
    (tpBuild env st).1.building = false ∧
    (∀ st2 : TpState, st2.building = true → tpBuild env st2 = (st2, [])) := by
  have hkey : tpBuild env st =
      ({ table := (buildLoop env ids k { st with building := true }).1.table,
         progress := 0, builtAt := some env.now, ready := true, building := false },
       (buildLoop env ids k { st with building := true }).2) := by
    simp [tpBuild, hb, hids, hk, hne, Nat.pos_iff_ne_zero.mp hkpos, hkpos]
  refine ⟨?_, ?_, ?_, ?_, ?_, ?_, ?_⟩
  · intro b hbmem
    rw [hkey] at hbmem
    exact buildLoop_batches env ids k _ b hbmem

  · intro hlt
    rw [hkey]
    exact buildLoop_head env ids k _ hlt
  · rw [hkey]
  · rw [hkey]
  · rw [hkey]
  · rw [hkey]
  · intro st2 h2
    simp [tpBuild, h2]

/-- C10: during a build, a batch whose item fetch returns null or an empty
list upserts nothing, yet the loop still advances the persisted progress
offset to the end of that batch and continues; every batch fetched from
then on (hence by any resumed build) lies past the failed batch. -/
theorem failed_batch_skipped (env : TpEnv) (ids : List Nat) (i : Nat)
    (st : TpState) (hi : i < ids.length)
    (hfail : env.itemsFor ((ids.drop i).take BATCH_SIZE) = none ∨
             env.itemsFor ((ids.drop i).take BATCH_SIZE) = some []) :
    buildLoop env ids i st =
      ((buildLoop env ids (i + BATCH_SIZE) { st with progress := i + BATCH_SIZE }).1,
       ((ids.drop i).take BATCH_SIZE) ::
         (buildLoop env ids (i + BATCH_SIZE) { st with progress := i + BATCH_SIZE }).2) ∧
    (∀ b ∈ (buildLoop env ids (i + BATCH_SIZE) { st with progress := i + BATCH_SIZE }).2,
      ∃ j, i + BATCH_SIZE ≤ j ∧ b = (ids.drop j).take BATCH_SIZE) := by
  constructor
  · rw [buildLoop, dif_pos hi]
    rcases hfail with hf | hf <;> simp [hf]
  · exact buildLoop_batches env ids (i + BATCH_SIZE) _

/-- Witness for C8: the build resumes at offset 2 of the five-element id
list and completes. -/
theorem build_resumable_witness :
    tpWitnessState.building = false ∧ tpWitnessState.progress = 2 ∧
    (0 : Nat) < 2 ∧ tpWitnessEnv.allIds = some (List.range 5) ∧
    (List.range 5).length ≠ 0 ∧
    ((∀ b ∈ (tpBuild tpWitnessEnv tpWitnessState).2,
       ∃ j, 2 ≤ j ∧ b = ((List.range 5).drop j).take BATCH_SIZE) ∧
     (2 < (List.range 5).length →
       ((tpBuild tpWitnessEnv tpWitnessState).2).head? =
         some (((List.range 5).drop 2).take BATCH_SIZE)) ∧
     (tpBuild tpWitnessEnv tpWitnessState).1.builtAt = some tpWitnessEnv.now ∧
     (tpBuild tpWitnessEnv tpWitnessState).1.progress = 0 ∧
     (tpBuild tpWitnessEnv tpWitnessState).1.ready = true ∧
     (tpBuild tpWitnessEnv tpWitnessState).1.building = false ∧
     (∀ st2 : TpState, st2.building = true →
       tpBuild tpWitnessEnv st2 = (st2, []))) :=
  ⟨rfl, rfl, by decide, rfl, by decide,
   build_resumable tpWitnessEnv tpWitnessState (List.range 5) 2 rfl rfl
     (by decide) rfl (by decide)⟩

/-- Witness for C10: the batch at offset 0 fails (null fetch); the loop
still advances past it and the continuation fetches only later offsets. -/
theorem failed_batch_skipped_witness :
    (0 : Nat) < (List.range 5).length ∧
    tpWitnessEnv.itemsFor (((List.range 5).drop 0).take BATCH_SIZE) = none ∧
    (buildLoop tpWitnessEnv (List.range 5) 0 tpWitnessState =
      ((buildLoop tpWitnessEnv (List.range 5) (0 + BATCH_SIZE)
          { tpWitnessState with progress := 0 + BATCH_SIZE }).1,
       (((List.range 5).drop 0).take BATCH_SIZE) ::
         (buildLoop tpWitnessEnv (List.range 5) (0 + BATCH_SIZE)
           { tpWitnessState with progress := 0 + BATCH_SIZE }).2) ∧
     (∀ b ∈ (buildLoop tpWitnessEnv (List.range 5) (0 + BATCH_SIZE)
         { tpWitnessState with progress := 0 + BATCH_SIZE }).2,
       ∃ j, 0 + BATCH_SIZE ≤ j ∧ b = ((List.range 5).drop j).take BATCH_SIZE)) :=
  ⟨by decide, rfl,
   failed_batch_skipped tpWitnessEnv (List.range 5) 0 tpWitnessState
     (by decide) (Or.inl rfl)⟩

end GW2
